import Mathlib

/-!
Shallow embedding of the resume-roast debate engine and feedback store.

Sources embedded here:
* `src/server/agents/critic.py`, `advocate.py`, `realist.py` — prompt templates;
* `src/server/agents/graph.py` — `AgentOrchestrator.execute_debate`;
* `src/server/api/routes.py` — the `generate_stream` consumer and `submit_feedback`;
* `src/server/repositories/feedback_repository.py` — `FeedbackRepository`.

Conventions: Python strings are Lean `String`s; a Python `ValueError` /
`HTTPException` path is an `Except String` error; `datetime.utcnow()` is an
explicit `now : Nat` parameter; Python `float` confidence scores are modelled
as `ℚ` (every constant the code compares — 0.95, 0.8, 0.3 — is handled only by
`max`/`min`, so exact rationals and IEEE doubles order identically here);
`UUID` keys are `Nat`, and an optional (possibly `None`) argument is an
`Option`.  The LLM Completion Gateway is a parameter: each agent's streamed
completion is given as the list of text fragments the gateway yields.
-/

set_option maxRecDepth 8192

namespace ResumeRoast

/-- Python `not s or not s.strip()`: true exactly when `s` is empty or
whitespace-only, i.e. when every character is whitespace (stated over the
character list, which the kernel can evaluate). -/
def isBlank (s : String) : Bool := s.data.all Char.isWhitespace

/-- Python `str.lower()` (ASCII case mapping, as the agent names here are
ASCII), over the character list so that it is kernel-computable. -/
def pyLower (s : String) : String := ⟨s.data.map Char.toLower⟩

/-! ## Prompt templates (src/server/agents/critic.py, advocate.py, realist.py) -/

/-- The appended memory section of `get_system_prompt` (identical in the three
agents): `"\n\nBased on previous feedback patterns:\n" + "\n".join(memory_context)`. -/
def memorySection (memory_context : List String) : String :=
  "\n\nBased on previous feedback patterns:\n" ++ String.intercalate "\n" memory_context

/-- The Critic's fixed `base_prompt` string (critic.py lines 29-37). -/
def criticBasePrompt : String :=
  "You are the Critic. Identify ONLY the top 3 critical resume issues.\n\nBe direct and specific. Maximum 100 words total.\n\nFormat:\n1. [Issue] - [Why it matters] - [Quick fix]\n2. [Issue] - [Why it matters] - [Quick fix] \n3. [Issue] - [Why it matters] - [Quick fix]\n\nFocus on: Missing keywords, weak language, experience gaps."

/-- The Advocate's fixed `base_prompt` string (advocate.py lines 29-37). -/
def advocateBasePrompt : String :=
  "You are the Advocate - an enthusiastic career coach. Highlight this candidate's top 3 strengths.\n\nFocus on:\n- Unique achievements and skills\n- Transferable experience  \n- Growth potential\n\nBe encouraging and specific. Keep response under 150 words.\nEnd with why they'd be a great fit for the role."

/-- The Realist's fixed `base_prompt` string (realist.py lines 29-37). -/
def realistBasePrompt : String :=
  "You are the Realist - a pragmatic hiring manager. Provide 3 specific, actionable recommendations.\n\nBalance the Critic's concerns with the Advocate's strengths:\n- Prioritize high-impact changes\n- Give practical next steps\n- Consider market realities\n\nKeep response under 150 words.\nEnd with one key positioning strategy for this role."

/-- CriticAgent.get_system_prompt: the fixed base prompt, with the memory
section appended only when `memory_context` is truthy (non-empty; a Python
`None` argument is modelled as `[]`). -/
def CriticAgent.get_system_prompt (memory_context : List String) : String :=
  if memory_context.isEmpty then criticBasePrompt
  else criticBasePrompt ++ memorySection memory_context

/-- AdvocateAgent.get_system_prompt (advocate.py lines 18-42). -/
def AdvocateAgent.get_system_prompt (memory_context : List String) : String :=
  if memory_context.isEmpty then advocateBasePrompt
  else advocateBasePrompt ++ memorySection memory_context

/-- RealistAgent.get_system_prompt (realist.py lines 18-42). -/
def RealistAgent.get_system_prompt (memory_context : List String) : String :=
  if memory_context.isEmpty then realistBasePrompt
  else realistBasePrompt ++ memorySection memory_context

/-- The f-string body CriticAgent.format_user_message returns on success. -/
def criticUserMessage (resume_text job_description : String) : String :=
  "\nJOB DESCRIPTION:\n" ++ job_description ++ "\n\nRESUME TO CRITIQUE:\n" ++ resume_text
    ++ "\n\nProvide your critical analysis focusing on what would prevent this resume from succeeding for this specific role.\n"

/-- CriticAgent.format_user_message (critic.py lines 45-76): validates the two
inputs, raising the field-specific ValueError message on a blank one. -/
def CriticAgent.format_user_message (resume_text job_description : String) :
    Except String String :=
  if isBlank resume_text then .error "Resume text cannot be empty"
  else if isBlank job_description then .error "Job description cannot be empty"
  else .ok (criticUserMessage resume_text job_description)

/-- The f-string body AdvocateAgent.format_user_message returns on success. -/
def advocateUserMessage (resume_text job_description : String) : String :=
  "\nJOB DESCRIPTION:\n" ++ job_description ++ "\n\nRESUME TO ADVOCATE FOR:\n" ++ resume_text
    ++ "\n\nIdentify and highlight all the strengths, achievements, and positive aspects that make this candidate attractive for this role.\n"

/-- AdvocateAgent.format_user_message (advocate.py lines 44-75). -/
def AdvocateAgent.format_user_message (resume_text job_description : String) :
    Except String String :=
  if isBlank resume_text then .error "Resume text cannot be empty"
  else if isBlank job_description then .error "Job description cannot be empty"
  else .ok (advocateUserMessage resume_text job_description)

/-- The f-string body RealistAgent.format_user_message returns on success. -/
def realistUserMessage (resume_text job_description critic_response advocate_response : String) :
    String :=
  "\nJOB DESCRIPTION:\n" ++ job_description ++ "\n\nRESUME:\n" ++ resume_text
    ++ "\n\nCRITIC'S ANALYSIS:\n" ++ critic_response
    ++ "\n\nADVOCATE'S PERSPECTIVE:\n" ++ advocate_response
    ++ "\n\nNow provide your balanced, realistic assessment with specific actionable recommendations.\n"

/-- RealistAgent.format_user_message (realist.py lines 44-86): four checks in
source order, each raising its field-specific ValueError message. -/
def RealistAgent.format_user_message
    (resume_text job_description critic_response advocate_response : String) :
    Except String String :=
  if isBlank resume_text then .error "Resume text cannot be empty"
  else if isBlank job_description then .error "Job description cannot be empty"
  else if isBlank critic_response then .error "Critic response cannot be empty"
  else if isBlank advocate_response then .error "Advocate response cannot be empty"
  else .ok (realistUserMessage resume_text job_description critic_response advocate_response)

/-! ## Debate engine (src/server/agents/graph.py, AgentOrchestrator.execute_debate) -/

/-- graph.py `AgentWorkflowResult` dataclass. -/
structure AgentWorkflowResult where
  critic_response : String
  advocate_response : String
  realist_response : String
deriving DecidableEq, Repr

/-- One yielded dictionary of `execute_debate`: keys `agent_name`, `chunk`,
`is_complete`, `order`, plus the `results` key that only the final Workflow
dictionary carries (`none` elsewhere). -/
structure Event where
  agent_name : String
  chunk : String
  is_complete : Bool
  order : Nat
  results : Option AgentWorkflowResult := none
deriving DecidableEq, Repr

/-- The leading `{agent_name, chunk: "", is_complete: False, order}` event
yielded before an agent's gateway stream is opened. -/
def leadEvent (name : String) (ord : Nat) : Event := ⟨name, "", false, ord, none⟩

/-- A per-fragment `{agent_name, chunk, is_complete: False, order}` event. -/
def chunkEvent (name : String) (ord : Nat) (c : String) : Event := ⟨name, c, false, ord, none⟩

/-- The `{agent_name, chunk: "", is_complete: True, order}` completion event. -/
def doneEvent (name : String) (ord : Nat) : Event := ⟨name, "", true, ord, none⟩

/-- The terminal Workflow event (graph.py lines 220-230), carrying the three
accumulated responses. -/
def workflowEvent (critic_response advocate_response realist_response : String) : Event :=
  ⟨"Workflow", "", true, 4, some ⟨critic_response, advocate_response, realist_response⟩⟩

/-- A step of `execute_debate` observable from outside: a yielded event, or a
call opening the Completion Gateway stream for one agent
(`llm_service.generate_agent_response`). -/
inductive Action where
  | yield (e : Event)
  | gatewayCall (agent_name : String)
deriving DecidableEq, Repr

/-- The actions of one successfully streamed agent: gateway call after the
leading event, one chunk event per gateway fragment, then the completion
event. -/
def phaseActions (name : String) (ord : Nat) (frags : List String) : List Action :=
  Action.yield (leadEvent name ord) :: Action.gatewayCall name ::
    (frags.map (fun c => Action.yield (chunkEvent name ord c)) ++ [Action.yield (doneEvent name ord)])

/-- AgentOrchestrator.execute_debate (graph.py lines 126-230), with the
Completion Gateway's streamed fragments for each agent supplied as lists.
Returns the action trace performed and `some msg` when a `ValueError` with
message `msg` escapes (cutting the trace short), `none` on full success.
Per agent the source yields the leading empty-chunk event, builds the system
prompt and the user message (where validation can raise), opens the gateway
stream, accumulates and re-yields each fragment, then yields the completion
event; after the third agent it yields the Workflow event carrying the three
accumulated responses. -/
def execute_debate (resume_text job_description : String) (memory_context : List String)
    (criticFrags advocateFrags realistFrags : List String) :
    List Action × Option String :=
  let lead1 := Action.yield (leadEvent "Critic" 1)
  let _critic_prompt := CriticAgent.get_system_prompt memory_context
  match CriticAgent.format_user_message resume_text job_description with
  | .error e => ([lead1], some e)
  | .ok _ =>
    let critic_response := String.join criticFrags
    let criticActs := phaseActions "Critic" 1 criticFrags
    let lead2 := Action.yield (leadEvent "Advocate" 2)
    let _advocate_prompt := AdvocateAgent.get_system_prompt memory_context
    match AdvocateAgent.format_user_message resume_text job_description with
    | .error e => (criticActs ++ [lead2], some e)
    | .ok _ =>
      let advocate_response := String.join advocateFrags
      let advocateActs := phaseActions "Advocate" 2 advocateFrags
      let lead3 := Action.yield (leadEvent "Realist" 3)
      let _realist_prompt := RealistAgent.get_system_prompt memory_context
      match RealistAgent.format_user_message resume_text job_description
          critic_response advocate_response with
      | .error e => (criticActs ++ advocateActs ++ [lead3], some e)
      | .ok _ =>
        let realist_response := String.join realistFrags
        (criticActs ++ advocateActs ++ phaseActions "Realist" 3 realistFrags ++
          [Action.yield (workflowEvent critic_response advocate_response realist_response)],
         none)

/-- The event an action yields, when it is a yield. -/
def eventOfAction (a : Action) : Option Event :=
  match a with
  | .yield e => some e
  | .gatewayCall _ => none

/-- The events a trace yields, in order. -/
def yieldedEvents (acts : List Action) : List Event :=
  acts.filterMap eventOfAction

/-- The event sequence of one successfully streamed agent. -/
def agentBlock (name : String) (ord : Nat) (frags : List String) : List Event :=
  leadEvent name ord :: (frags.map (chunkEvent name ord) ++ [doneEvent name ord])

/-- Concatenation, in emission order, of the `chunk` fields of one agent's
events with `is_complete = False`. -/
def chunksConcat (evs : List Event) (name : String) : String :=
  String.join ((evs.filter (fun e => e.agent_name == name && !e.is_complete)).map Event.chunk)

/-! ## Stream consumer (src/server/api/routes.py, stream_analysis.generate_stream) -/

/-- Python `agent_responses` dict lookup, for the dict modelled as an
insertion-ordered association list. -/
def dictGet (m : List (String × String)) (k : String) : Option String :=
  (m.find? (fun p => p.1 == k)).map (·.2)

/-- The accumulation step of generate_stream (routes.py lines 200-204): insert
`k` with value `""` when absent, then append the chunk to its value. -/
def accumulate (m : List (String × String)) (k c : String) : List (String × String) :=
  match m.find? (fun p => p.1 == k) with
  | some _ => m.map (fun p => if p.1 == k then (p.1, p.2 ++ c) else p)
  | none => m ++ [(k, c)]

/-- The consumer's state: the `agent_responses` accumulation dict, and the
argument triples `(agent_name, response_text, order)` of the
`feedback_repo.add_agent_response` calls it has issued, in call order. -/
structure StreamState where
  agent_responses : List (String × String)
  persisted : List (String × String × Nat)
deriving DecidableEq, Repr

/-- One loop iteration of generate_stream (routes.py lines 182-208): on a
completion event of a non-Workflow agent whose name is already a key of the
dict, persist the accumulated text under the event's order; on a non-complete
event, accumulate its chunk. -/
def consumeEvent (st : StreamState) (e : Event) : StreamState :=
  let st1 :=
    if e.is_complete && e.agent_name != "Workflow" then
      match dictGet st.agent_responses e.agent_name with
      | some text => { st with persisted := st.persisted ++ [(e.agent_name, text, e.order)] }
      | none => st
    else st
  if !e.is_complete then
    { st1 with agent_responses := accumulate st1.agent_responses e.agent_name e.chunk }
  else st1

/-- generate_stream's whole pass over the debate's event sequence. -/
def consumeStream (evs : List Event) : StreamState :=
  evs.foldl consumeEvent ⟨[], []⟩

/-! ## Feedback repository (src/server/repositories/feedback_repository.py) -/

/-- A `feedback_sessions` row (core/models.py lines 45-86); `completed_at` is
`NULL` until completion. -/
structure FeedbackSessionRec where
  resume_id : Nat
  status : String
  completed_at : Option Nat
deriving DecidableEq, Repr

/-- The status values models.py documents for FeedbackSession (`in_progress,
completed, failed`, also the pattern of core/schemas.py line 59). -/
def sessionStatuses : List String := ["in_progress", "completed", "failed"]

/-- FeedbackRepository.create_feedback_session (feedback_repository.py lines
25-49): requires a resume id (a Python `None` is falsy and raises) and inserts
a session with status "in_progress". -/
def create_feedback_session (resume_id : Option Nat) : Except String FeedbackSessionRec :=
  match resume_id with
  | none => .error "Resume ID is required"
  | some rid => .ok ⟨rid, "in_progress", none⟩

/-- FeedbackRepository.complete_feedback_session (lines 95-112) applied to a
found session: sets status "completed" and `completed_at` to now. -/
def complete_feedback_session (s : FeedbackSessionRec) (now : Nat) : FeedbackSessionRec :=
  { s with status := "completed", completed_at := some now }

/-- An `agent_responses` row (core/models.py lines 89-126). -/
structure AgentResponseRec where
  id : Nat
  session_id : Nat
  agent_name : String
  response_text : String
  order : Int
  thumbs_up : Option Bool
  feedback_text : Option String
deriving DecidableEq, Repr

/-- FeedbackRepository.add_agent_response (feedback_repository.py lines
51-93): validates the inputs (a `None` session id, a blank agent name or
response text, or a negative order raise a ValueError), then unconditionally
inserts a new row with the lowercased agent name. `newId` stands for the
fresh `uuid4` primary key. -/
def add_agent_response (db : List AgentResponseRec) (newId : Nat)
    (session_id : Option Nat) (agent_name response_text : String) (order : Int) :
    Except String (List AgentResponseRec × AgentResponseRec) :=
  match session_id with
  | none => .error "Session ID is required"
  | some sid =>
    if isBlank agent_name then .error "Agent name is required"
    else if isBlank response_text then .error "Response text is required"
    else if order < 0 then .error "Order must be non-negative"
    else
      let response : AgentResponseRec :=
        ⟨newId, sid, (pyLower agent_name), response_text, order, none, none⟩
      .ok (db ++ [response], response)

/-- FeedbackRepository.update_agent_feedback (lines 133-160): look the row up
by id; when found, set its `thumbs_up` and `feedback_text`. -/
def update_agent_feedback (db : List AgentResponseRec) (response_id : Nat)
    (thumbs_up : Bool) (feedback_text : Option String) :
    Option (List AgentResponseRec × AgentResponseRec) :=
  match db.find? (fun r => r.id == response_id) with
  | none => none
  | some r =>
    let updated := { r with thumbs_up := some thumbs_up, feedback_text := feedback_text }
    some (db.map (fun x => if x.id == response_id then updated else x), updated)

/-- FeedbackRepository.get_agent_response_by_session_and_name (lines 162-182):
`scalar_one_or_none` over the rows matching the session id and the lowercased
agent name. -/
def get_agent_response_by_session_and_name (db : List AgentResponseRec)
    (session_id : Nat) (agent_name : String) : Except String (Option AgentResponseRec) :=
  match db.filter (fun r => r.session_id == session_id && r.agent_name == (pyLower agent_name)) with
  | [] => .ok none
  | [r] => .ok (some r)
  | _ => .error "Multiple rows were found when one or none was required"

/-- An `aggregated_learnings` row (core/models.py lines 129-158). -/
structure Learning where
  pattern_type : String
  description : String
  agent_name : String
  frequency : Nat
  confidence_score : ℚ
  last_updated : Nat
deriving DecidableEq, Repr

/-- The exact-match lookup key of create_or_update_learning (lines 231-237):
`pattern_type`, `description` and the lowercased `agent_name`. -/
def learningKey (pattern_type description agent_lower : String) (l : Learning) : Bool :=
  l.pattern_type == pattern_type && l.description == description && l.agent_name == agent_lower

/-- FeedbackRepository.create_or_update_learning (feedback_repository.py lines
211-265): `scalar_one_or_none` lookup by exact key; when found, increment
`frequency` by 1, set `confidence_score` to
`max(existing, min(confidence_score, 0.95))` and `last_updated` to now; when
absent, insert a new row with `frequency = 1` and the confidence as passed. -/
def create_or_update_learning (db : List Learning) (now : Nat)
    (pattern_type description agent_name : String) (confidence_score : ℚ) :
    Except String (List Learning × Learning) :=
  let key := learningKey pattern_type description (pyLower agent_name)
  match db.filter key with
  | [existing] =>
    let updated : Learning := { existing with
      frequency := existing.frequency + 1,
      confidence_score := max existing.confidence_score (min confidence_score ((19 : ℚ)/20)),
      last_updated := now }
    .ok (db.map (fun l => if key l then updated else l), updated)
  | [] =>
    let learning : Learning := ⟨pattern_type, description, (pyLower agent_name), 1, confidence_score, now⟩
    .ok (db ++ [learning], learning)
  | _ => .error "Multiple rows were found when one or none was required"

/-- A sequence of create_or_update_learning calls with one fixed key, each
call supplying its confidence and its clock value. -/
def upsertIter (pattern_type description agent_name : String)
    (db : List Learning) (calls : List (ℚ × Nat)) : Except String (List Learning) :=
  calls.foldlM
    (fun acc c =>
      (create_or_update_learning acc c.2 pattern_type description agent_name c.1).map (·.1))
    db

/-- The closed form of the confidence after the inserting call with confidence
`c₀` followed by the updating calls `cs` (derived, for stating C4's amended
invariant). -/
def confFold (c₀ : ℚ) (cs : List (ℚ × Nat)) : ℚ :=
  cs.foldl (fun a c => max a (min c.1 ((19 : ℚ)/20))) c₀

/-! ## Feedback route (src/server/api/routes.py, submit_feedback) -/

/-- The default description submit_feedback derives when no feedback text is
given (routes.py line 281). -/
def defaultDescription (thumbs_up : Bool) : String :=
  "User gave " ++ (if thumbs_up then "positive" else "negative") ++ " feedback"

/-- The description submit_feedback derives (routes.py lines 272-282):
`feedback_text[:200]` when `feedback_text` is truthy (present and non-empty),
else the templated sentence. -/
def feedbackDescription (thumbs_up : Bool) (feedback_text : Option String) : String :=
  match feedback_text with
  | some t => if t == "" then defaultDescription thumbs_up else t.take 200
  | none => defaultDescription thumbs_up

/-- The pattern type submit_feedback derives (routes.py line 269). -/
def feedbackPatternType (thumbs_up : Bool) : String :=
  if thumbs_up then "positive_feedback" else "negative_feedback"

/-- The baseline confidence submit_feedback derives (routes.py line 270). -/
def feedbackConfidence (thumbs_up : Bool) : ℚ :=
  if thumbs_up then (8 : ℚ)/10 else (3 : ℚ)/10

/-- submit_feedback (routes.py lines 235-306) over the two stores: find the
agent response by session and name (404 when absent), record the thumbs and
text on it, then upsert the derived learning under the stored (lowercased)
agent name. -/
def submit_feedback (responses : List AgentResponseRec) (learnings : List Learning)
    (now : Nat) (session_id : Nat) (agent_name : String) (thumbs_up : Bool)
    (feedback_text : Option String) :
    Except String (List AgentResponseRec × List Learning) :=
  match get_agent_response_by_session_and_name responses session_id agent_name with
  | .error e => .error e
  | .ok none => .error ("Agent response not found for " ++ agent_name)
  | .ok (some resp) =>
    match update_agent_feedback responses resp.id thumbs_up feedback_text with
    | none => .error "Failed to update agent response"
    | some (responses1, updated) =>
      match create_or_update_learning learnings now (feedbackPatternType thumbs_up)
          (feedbackDescription thumbs_up feedback_text) updated.agent_name
          (feedbackConfidence thumbs_up) with
      | .error e => .error e
      | .ok (learnings1, _) => .ok (responses1, learnings1)

/-! ## Derived notions used by the statements -/

/-- One updating create_or_update_learning call applied to the stored record
(the found branch, lines 242-250), with `c = (confidence, now)`. -/
def updStep (r : Learning) (c : ℚ × Nat) : Learning :=
  { r with frequency := r.frequency + 1,
           confidence_score := max r.confidence_score (min c.1 ((19 : ℚ)/20)),
           last_updated := c.2 }

/-- The stored record after a sequence of updating calls. -/
def updRun (r : Learning) (cs : List (ℚ × Nat)) : Learning := cs.foldl updStep r

/-- The agent an action concerns: the agent of a yielded event, or the agent a
gateway stream is opened for. -/
def mentionsAgent (a : Action) (n : String) : Prop :=
  match a with
  | .yield e => e.agent_name = n
  | .gatewayCall g => g = n

/-- Exactly-one-completion positioning of C1: the event list splits around one
completion event of the agent such that before it the agent only streamed
chunks, after it the agent never appears again, and no event of the next
phase precedes it. -/
def completesOnceInOrder (evs : List Event) (name : String) (ord : Nat) (next : String) : Prop :=
  ∃ pre post, evs = pre ++ doneEvent name ord :: post ∧
    (∀ e ∈ pre, e.agent_name = name → e.is_complete = false) ∧
    (∀ e ∈ post, e.agent_name ≠ name) ∧
    (∀ e ∈ pre, e.agent_name ≠ next)

/-- Two add_agent_response calls for the same (session, agent): the concrete
run refuting C5's idempotence. -/
def addResponseTwice : Except String (List AgentResponseRec) := do
  let s1 ← add_agent_response [] 10 (some 7) "Critic" "solid critique" 1
  let s2 ← add_agent_response s1.1 11 (some 7) "Critic" "solid critique" 1
  pure s2.1

/-- The C7 scenario: one recorded Critic response, then
`submit(agent="Critic", thumbs_up=False, feedback_text="too vague")` twice;
the resulting learnings store. -/
def submitSameFeedbackTwice : Except String (List Learning) := do
  let r1 ← submit_feedback [⟨1, 7, "critic", "Needs metrics", 1, none, none⟩] [] 5 7 "Critic"
    false (some "too vague")
  let r2 ← submit_feedback r1.1 r1.2 6 7 "Critic" false (some "too vague")
  pure r2.2

/-! ## Helper lemmas -/

/-- Updating in place every row matching a key, when exactly one row did,
leaves exactly the one updated row matching the key. -/
theorem filter_map_update {α : Type} (key : α → Bool) (u : α) (hu : key u = true) :
    ∀ (db : List α) (r : α), db.filter key = [r] →
      (db.map (fun l => if key l then u else l)).filter key = [u] := by
  intro db
  induction db with
  | nil => intro r h; simp at h
  | cons a db ih =>
    intro r h
    by_cases ha : key a = true
    · rw [List.filter_cons_of_pos ha] at h
      have hnil : db.filter key = [] := (List.cons_eq_cons.mp h).2
      have hdb : ∀ l ∈ db, key l = false := by
        intro l hl
        rcases Bool.eq_false_or_eq_true (key l) with h' | h'
        · exfalso
          have hmem : l ∈ db.filter key := List.mem_filter.mpr ⟨hl, h'⟩
          rw [hnil] at hmem
          simp at hmem
        · exact h'
      have hmap : db.map (fun l => if key l then u else l) = db := by
        conv_rhs => rw [← List.map_id db]
        exact List.map_congr_left (fun l hl => by simp [hdb l hl])
      simp only [List.map_cons, if_pos ha, hmap]
      rw [List.filter_cons_of_pos hu]
      rw [List.filter_eq_nil_iff.mpr (fun l hl => by simp [hdb l hl])]
    · have ha' : key a = false := by simpa using ha
      rw [List.filter_cons_of_neg (by simp [ha'])] at h
      simp only [List.map_cons, if_neg (by simp [ha'] : ¬ key a = true)]
      rw [List.filter_cons_of_neg (by simp [ha'])]
      exact ih r h

theorem learningKey_updStep (pt d al : String) (r : Learning) (c : ℚ × Nat) :
    learningKey pt d al (updStep r c) = learningKey pt d al r := rfl

theorem upsert_insert (db : List Learning) (now : Nat) (pt d an : String) (c : ℚ)
    (h0 : db.filter (learningKey pt d (pyLower an)) = []) :
    create_or_update_learning db now pt d an c =
      .ok (db ++ [⟨pt, d, (pyLower an), 1, c, now⟩], ⟨pt, d, (pyLower an), 1, c, now⟩) := by
  simp only [create_or_update_learning, h0]

theorem upsert_update (db : List Learning) (now : Nat) (pt d an : String) (c : ℚ)
    (r : Learning) (h : db.filter (learningKey pt d (pyLower an)) = [r]) :
    create_or_update_learning db now pt d an c =
      .ok (db.map (fun l => if learningKey pt d (pyLower an) l then updStep r (c, now) else l),
           updStep r (c, now)) := by
  simp only [create_or_update_learning, h, updStep]

theorem learningKey_self (pt d al : String) (freq : Nat) (c : ℚ) (t : Nat) :
    learningKey pt d al ⟨pt, d, al, freq, c, t⟩ = true := by
  simp [learningKey]

theorem upsertIter_found (pt d an : String) :
    ∀ (cs : List (ℚ × Nat)) (db : List Learning) (r : Learning),
      db.filter (learningKey pt d (pyLower an)) = [r] →
      ∃ db1, upsertIter pt d an db cs = .ok db1 ∧
        db1.filter (learningKey pt d (pyLower an)) = [updRun r cs] := by
  intro cs
  induction cs with
  | nil =>
    intro db r h
    exact ⟨db, rfl, by simpa [updRun] using h⟩
  | cons c cs ih =>
    intro db r h
    have hr : learningKey pt d (pyLower an) r = true := by
      have hmem : r ∈ db.filter (learningKey pt d (pyLower an)) := by
        rw [h]; exact List.mem_singleton_self r
      exact (List.mem_filter.mp hmem).2
    have hkeystep : learningKey pt d (pyLower an) (updStep r c) = true := by
      rw [learningKey_updStep]; exact hr
    have hfilter1 := filter_map_update (learningKey pt d (pyLower an)) (updStep r c) hkeystep db r h
    obtain ⟨db1, hdb1, hfil⟩ := ih _ (updStep r c) hfilter1
    refine ⟨db1, ?_, ?_⟩
    · have hstep : upsertIter pt d an db (c :: cs) =
          upsertIter pt d an
            (db.map (fun l => if learningKey pt d (pyLower an) l then updStep r c else l)) cs := by
        simp only [upsertIter, List.foldlM_cons, upsert_update db c.2 pt d an c.1 r h, Except.map]
        rfl
      rw [hstep, hdb1]
    · simpa [updRun, List.foldl_cons] using hfil

theorem updRun_frequency (cs : List (ℚ × Nat)) :
    ∀ r : Learning, (updRun r cs).frequency = r.frequency + cs.length := by
  induction cs with
  | nil => intro r; simp [updRun]
  | cons c cs ih =>
    intro r
    have := ih (updStep r c)
    simp only [updRun, List.foldl_cons] at *
    simpa [updStep] using this.trans (by simp [updStep]; ring)

theorem updRun_confidence (cs : List (ℚ × Nat)) :
    ∀ r : Learning, (updRun r cs).confidence_score = confFold r.confidence_score cs := by
  induction cs with
  | nil => intro r; simp [updRun, confFold]
  | cons c cs ih =>
    intro r
    simp only [updRun, List.foldl_cons, confFold] at *
    rw [ih (updStep r c)]
    simp [updStep, confFold]

theorem le_confFold (cs : List (ℚ × Nat)) : ∀ a : ℚ, a ≤ confFold a cs := by
  induction cs with
  | nil => intro a; simp [confFold]
  | cons c cs ih =>
    intro a
    calc a ≤ max a (min c.1 ((19 : ℚ)/20)) := le_max_left _ _
    _ ≤ confFold (max a (min c.1 ((19 : ℚ)/20))) cs := ih _
    _ = confFold a (c :: cs) := by simp [confFold]

theorem confFold_le_max (cs : List (ℚ × Nat)) :
    ∀ a : ℚ, confFold a cs ≤ max a ((19 : ℚ)/20) := by
  induction cs with
  | nil => intro a; simp [confFold]
  | cons c cs ih =>
    intro a
    have h1 : confFold a (c :: cs) = confFold (max a (min c.1 ((19 : ℚ)/20))) cs := by
      simp [confFold]
    rw [h1]
    refine le_trans (ih _) (max_le (max_le (le_max_left _ _) ?_) (le_max_right _ _))
    exact le_trans (min_le_right _ _) (le_max_right _ _)

theorem confFold_append (cs1 cs2 : List (ℚ × Nat)) (a : ℚ) :
    confFold a (cs1 ++ cs2) = confFold (confFold a cs1) cs2 := by
  simp [confFold, List.foldl_append]

/-! ## Claim theorems: learning store (C3, C4) -/

/-- C3: create_or_update_learning with key (pattern_type, description,
lowercased agent_name): when exactly one record with that key exists, its
frequency is incremented by 1, its confidence_score becomes
max(existing, min(confidence, 0.95)) and its last_updated becomes the current
time, the rest of the store unchanged; when no record with the key exists, a
new record with frequency 1 is appended. -/
theorem C3_upsert_semantics (db : List Learning) (now : Nat) (pt d an : String) (c : ℚ) :
    (∀ existing, db.filter (learningKey pt d (pyLower an)) = [existing] →
      create_or_update_learning db now pt d an c =
        .ok (db.map (fun l => if learningKey pt d (pyLower an) l then
              { existing with
                frequency := existing.frequency + 1,
                confidence_score := max existing.confidence_score (min c ((19 : ℚ)/20)),
                last_updated := now }
            else l),
          { existing with
            frequency := existing.frequency + 1,
            confidence_score := max existing.confidence_score (min c ((19 : ℚ)/20)),
            last_updated := now })) ∧
    (db.filter (learningKey pt d (pyLower an)) = [] →
      create_or_update_learning db now pt d an c =
        .ok (db ++ [⟨pt, d, (pyLower an), 1, c, now⟩], ⟨pt, d, (pyLower an), 1, c, now⟩)) := by
  constructor
  · intro existing hfind
    simpa [updStep] using upsert_update db now pt d an c existing hfind
  · intro hfind
    exact upsert_insert db now pt d an c hfind

/-- Witness for C3 at concrete inputs: one updating call on a store holding
the key, and one inserting call on the empty store. -/
theorem C3_upsert_semantics_witness :
    create_or_update_learning [⟨"negative_feedback", "too vague", "critic", 2, (3 : ℚ)/10, 0⟩]
        9 "negative_feedback" "too vague" "Critic" ((1 : ℚ)/2) =
      .ok ([⟨"negative_feedback", "too vague", "critic", 3, (1 : ℚ)/2, 9⟩],
           ⟨"negative_feedback", "too vague", "critic", 3, (1 : ℚ)/2, 9⟩) ∧
    create_or_update_learning [] 9 "negative_feedback" "too vague" "Critic" ((1 : ℚ)/2) =
      .ok ([⟨"negative_feedback", "too vague", (pyLower "Critic"), 1, (1 : ℚ)/2, 9⟩],
           ⟨"negative_feedback", "too vague", (pyLower "Critic"), 1, (1 : ℚ)/2, 9⟩) := by
  have hlow : pyLower "Critic" = "critic" := rfl
  constructor
  · have hfind :
        List.filter (learningKey "negative_feedback" "too vague" (pyLower "Critic"))
          [⟨"negative_feedback", "too vague", "critic", 2, (3 : ℚ)/10, 0⟩] =
          [⟨"negative_feedback", "too vague", "critic", 2, (3 : ℚ)/10, 0⟩] := by
      simp [learningKey, hlow]
    have h := (C3_upsert_semantics
      [⟨"negative_feedback", "too vague", "critic", 2, (3 : ℚ)/10, 0⟩]
      9 "negative_feedback" "too vague" "Critic" ((1 : ℚ)/2)).1
      ⟨"negative_feedback", "too vague", "critic", 2, (3 : ℚ)/10, 0⟩ hfind
    rw [h]
    simp [learningKey, hlow]
    rw [min_eq_left (by norm_num), max_eq_right (by norm_num)]
  · exact (C3_upsert_semantics [] 9 "negative_feedback" "too vague" "Critic" ((1 : ℚ)/2)).2 rfl

/-- C4 fails as stated: the inserting call stores the supplied confidence
unclamped, so confidence_score can leave [0, 0.95] — here the insert with
confidence 1 yields a stored confidence_score of 1 > 0.95. -/
theorem C4_counterexample :
    create_or_update_learning [] 0 "positive_feedback" "great" "critic" 1 =
      .ok ([⟨"positive_feedback", "great", "critic", 1, 1, 0⟩],
           ⟨"positive_feedback", "great", "critic", 1, 1, 0⟩) ∧
    ¬ ((1 : ℚ) ≤ 19/20) := by
  constructor
  · exact upsert_insert [] 0 "positive_feedback" "great" "critic" 1 rfl
  · norm_num

/-- C4 amended: starting from a store without the key, after the inserting
call (confidence c₀) and any prefix cs1 of the further same-key calls cs, the
stored record has frequency 1 + |cs1| (so each repeated call adds exactly 1),
its confidence is the max-fold confFold c₀ cs1, never below c₀, never above
max(c₀, 0.95) — hence inside [0, 0.95] whenever c₀ is — and never decreases as
the run extends. -/
theorem C4_confidence_frequency_invariant (db : List Learning) (pt d an : String)
    (h0 : db.filter (learningKey pt d (pyLower an)) = [])
    (c₀ : ℚ) (t₀ : Nat) (cs : List (ℚ × Nat)) :
    ∀ cs1 cs2, cs = cs1 ++ cs2 →
      ∃ db1 r1, upsertIter pt d an db ((c₀, t₀) :: cs1) = .ok db1 ∧
        db1.filter (learningKey pt d (pyLower an)) = [r1] ∧
        r1.frequency = 1 + cs1.length ∧
        r1.confidence_score = confFold c₀ cs1 ∧
        c₀ ≤ r1.confidence_score ∧
        r1.confidence_score ≤ max c₀ ((19 : ℚ)/20) ∧
        (0 ≤ c₀ → c₀ ≤ (19 : ℚ)/20 → 0 ≤ r1.confidence_score ∧ r1.confidence_score ≤ (19 : ℚ)/20) ∧
        confFold c₀ cs1 ≤ confFold c₀ cs := by
  intro cs1 cs2 hsplit
  set r₀ : Learning := ⟨pt, d, (pyLower an), 1, c₀, t₀⟩ with hr₀
  have hfil0 : (db ++ [r₀]).filter (learningKey pt d (pyLower an)) = [r₀] := by
    rw [List.filter_append, h0, List.nil_append]
    simp [hr₀, learningKey_self]
  have hstep : upsertIter pt d an db ((c₀, t₀) :: cs1) = upsertIter pt d an (db ++ [r₀]) cs1 := by
    simp only [upsertIter, List.foldlM_cons, upsert_insert db t₀ pt d an c₀ h0, Except.map]
    rfl
  obtain ⟨db1, hdb1, hfil1⟩ := upsertIter_found pt d an cs1 (db ++ [r₀]) r₀ hfil0
  refine ⟨db1, updRun r₀ cs1, by rw [hstep, hdb1], hfil1, ?_, ?_, ?_, ?_, ?_, ?_⟩
  · rw [updRun_frequency]
  · rw [updRun_confidence]
  · rw [updRun_confidence]; exact le_confFold cs1 c₀
  · rw [updRun_confidence]; exact confFold_le_max cs1 c₀
  · intro hle0 hle95
    rw [updRun_confidence]
    refine ⟨le_trans hle0 (le_confFold cs1 c₀), ?_⟩
    have := confFold_le_max cs1 c₀
    rwa [max_eq_right (by linarith : c₀ ≤ (19 : ℚ)/20)] at this
  · rw [hsplit, confFold_append]
    exact le_confFold cs2 (confFold c₀ cs1)

/-- Witness for C4's amended invariant: insert at confidence 0.3, then two
updates at 0.9 and 0.1; the stored record after the full run has frequency 3
and confidence 0.9. -/
theorem C4_confidence_frequency_invariant_witness :
    ∃ db1 r1,
      upsertIter "negative_feedback" "too vague" "critic" []
          [((3 : ℚ)/10, 0), ((9 : ℚ)/10, 1), ((1 : ℚ)/10, 2)] = .ok db1 ∧
      db1.filter (learningKey "negative_feedback" "too vague" (pyLower "critic")) = [r1] ∧
      r1.frequency = 1 + 2 ∧
      r1.confidence_score = confFold ((3 : ℚ)/10) [((9 : ℚ)/10, 1), ((1 : ℚ)/10, 2)] := by
  obtain ⟨db1, r1, h1, h2, h3, h4, -, -, -, -⟩ :=
    C4_confidence_frequency_invariant [] "negative_feedback" "too vague" "critic" rfl
      ((3 : ℚ)/10) 0 [((9 : ℚ)/10, 1), ((1 : ℚ)/10, 2)]
      [((9 : ℚ)/10, 1), ((1 : ℚ)/10, 2)] [] (by simp)
  exact ⟨db1, r1, h1, h2, h3, h4⟩

/-! ## Claim theorems: agent turns (C5) -/

/-- C5 fails as stated: add_agent_response never checks for an existing row,
so a second call for the same (session_id, agent_name) creates a duplicate —
after this concrete double call the store holds two AgentTurn rows for
(session 7, "critic"), not at most one. -/
theorem C5_counterexample :
    addResponseTwice =
      .ok [⟨10, 7, "critic", "solid critique", 1, none, none⟩,
           ⟨11, 7, "critic", "solid critique", 1, none, none⟩] ∧
    addResponseTwice.map
        (fun db => db.countP (fun r => r.session_id == 7 && r.agent_name == "critic")) =
      .ok 2 := by
  exact ⟨rfl, rfl⟩

/-- C5 amended: add_agent_response is not idempotent — every call passing
validation unconditionally appends one fresh row (with the lowercased agent
name), whatever rows with the same (session_id, agent_name) already exist,
so uniqueness per (session, agent_name) is not enforced by the repository. -/
theorem C5_always_inserts (db : List AgentResponseRec) (newId sid : Nat)
    (an txt : String) (ord : Int)
    (han : isBlank an = false) (htxt : isBlank txt = false) (hord : ¬ ord < 0) :
    add_agent_response db newId (some sid) an txt ord =
      .ok (db ++ [⟨newId, sid, pyLower an, txt, ord, none, none⟩],
           ⟨newId, sid, pyLower an, txt, ord, none, none⟩) := by
  simp [add_agent_response, han, htxt, hord]

/-- Witness for C5's amended statement: a second insert for (session 7,
Critic) on a store already holding that key appends a duplicate row. -/
theorem C5_always_inserts_witness :
    add_agent_response [⟨10, 7, "critic", "solid critique", 1, none, none⟩] 11 (some 7)
        "Critic" "solid critique" 1 =
      .ok ([⟨10, 7, "critic", "solid critique", 1, none, none⟩,
            ⟨11, 7, pyLower "Critic", "solid critique", 1, none, none⟩],
           ⟨11, 7, pyLower "Critic", "solid critique", 1, none, none⟩) :=
  C5_always_inserts [⟨10, 7, "critic", "solid critique", 1, none, none⟩] 11 7
    "Critic" "solid critique" 1 (by decide) (by decide) (by decide)

/-! ## Claim theorems: feedback submission (C7) -/

/-- C7: a feedback submission derives pattern_type positive_feedback /
negative_feedback from thumbs_up, description = the feedback text truncated to
200 characters when non-empty text is provided and a templated sentence
otherwise, baseline confidence 0.8 / 0.3; and the concrete double submission
(agent "Critic", thumbs_up False, "too vague") leaves one record with
pattern_type "negative_feedback", description "too vague", agent_name
"critic", frequency 2 and confidence_score 0.3. -/
theorem C7_feedback_derivation (tu : Bool) (t : String) (ht : t ≠ "") :
    feedbackPatternType tu = (if tu then "positive_feedback" else "negative_feedback") ∧
    feedbackConfidence tu = (if tu then (8 : ℚ)/10 else (3 : ℚ)/10) ∧
    feedbackDescription tu (some t) = t.take 200 ∧
    feedbackDescription tu none =
      "User gave " ++ (if tu then "positive" else "negative") ++ " feedback" ∧
    submitSameFeedbackTwice =
      .ok [⟨"negative_feedback", "too vague", "critic", 2, (3 : ℚ)/10, 6⟩] := by
  refine ⟨rfl, rfl, ?_, rfl, ?_⟩
  · simp [feedbackDescription, ht]
  · have h2 : submitSameFeedbackTwice =
        .ok [⟨"negative_feedback", "too vague", "critic", 2,
              max ((3 : ℚ)/10) (min ((3 : ℚ)/10) ((19 : ℚ)/20)), 6⟩] := rfl
    rw [h2, min_eq_left (by norm_num), max_self]

/-- Witness for C7 at thumbs_up = False and feedback text "too vague". -/
theorem C7_feedback_derivation_witness :
    feedbackDescription false (some "too vague") = String.take "too vague" 200 ∧
    submitSameFeedbackTwice =
      .ok [⟨"negative_feedback", "too vague", "critic", 2, (3 : ℚ)/10, 6⟩] := by
  have h := C7_feedback_derivation false "too vague" (by decide)
  exact ⟨h.2.2.1, h.2.2.2.2⟩

/-! ## Claim theorems: session lifecycle (C8) -/

/-- C8 fails as stated: create_feedback_session returns a session whose status
is "in_progress", not "pending". -/
theorem C8_counterexample :
    create_feedback_session (some 1) = .ok ⟨1, "in_progress", none⟩ ∧
    ("in_progress" : String) ≠ "pending" := by
  exact ⟨rfl, by decide⟩

/-- C8 amended: a created session's status is "in_progress"; statuses range
over the model's documented set {in_progress, completed, failed}; and the only
implemented transition is the forward-only move to "completed", which sets
completed_at and is absorbing (re-completing never leaves "completed"). -/
theorem C8_session_status (rid now now2 : Nat) (s : FeedbackSessionRec) :
    create_feedback_session (some rid) = .ok ⟨rid, "in_progress", none⟩ ∧
    "in_progress" ∈ sessionStatuses ∧
    (complete_feedback_session s now).status = "completed" ∧
    "completed" ∈ sessionStatuses ∧
    (complete_feedback_session s now).completed_at = some now ∧
    complete_feedback_session (complete_feedback_session s now) now2 =
      complete_feedback_session s now2 := by
  exact ⟨rfl, by decide, rfl, by decide, rfl, rfl⟩

/-! ## Claim theorems: system prompts (C9) -/

/-- C9: for each of the three agents, with a non-empty memory context the
system prompt is the fixed base prompt followed by the section
"Based on previous feedback patterns:" and the entries joined by newline;
with an empty (or absent) context it is exactly the base prompt. -/
theorem C9_system_prompts (ctx : List String) :
    (ctx ≠ [] →
      CriticAgent.get_system_prompt ctx =
        criticBasePrompt ++
          ("\n\nBased on previous feedback patterns:\n" ++ String.intercalate "\n" ctx) ∧
      AdvocateAgent.get_system_prompt ctx =
        advocateBasePrompt ++
          ("\n\nBased on previous feedback patterns:\n" ++ String.intercalate "\n" ctx) ∧
      RealistAgent.get_system_prompt ctx =
        realistBasePrompt ++
          ("\n\nBased on previous feedback patterns:\n" ++ String.intercalate "\n" ctx)) ∧
    (CriticAgent.get_system_prompt [] = criticBasePrompt ∧
     AdvocateAgent.get_system_prompt [] = advocateBasePrompt ∧
     RealistAgent.get_system_prompt [] = realistBasePrompt) := by
  constructor
  · intro h
    have he : ctx.isEmpty = false := by
      cases ctx with
      | nil => exact absurd rfl h
      | cons a l => rfl
    simp [CriticAgent.get_system_prompt, AdvocateAgent.get_system_prompt,
      RealistAgent.get_system_prompt, he, memorySection]
  · exact ⟨rfl, rfl, rfl⟩

/-- Witness for C9 at the one-entry memory context. -/
theorem C9_system_prompts_witness :
    CriticAgent.get_system_prompt ["Prefer concise bullet points"] =
      criticBasePrompt ++
        ("\n\nBased on previous feedback patterns:\n" ++
          String.intercalate "\n" ["Prefer concise bullet points"]) :=
  ((C9_system_prompts ["Prefer concise bullet points"]).1 (by decide)).1

/-! ## Engine lemmas -/

theorem critic_format_ok (rt jd : String) (hr : isBlank rt = false) (hj : isBlank jd = false) :
    CriticAgent.format_user_message rt jd = .ok (criticUserMessage rt jd) := by
  simp [CriticAgent.format_user_message, hr, hj]

theorem advocate_format_ok (rt jd : String) (hr : isBlank rt = false) (hj : isBlank jd = false) :
    AdvocateAgent.format_user_message rt jd = .ok (advocateUserMessage rt jd) := by
  simp [AdvocateAgent.format_user_message, hr, hj]

theorem realist_format_ok (rt jd cr ar : String) (hr : isBlank rt = false)
    (hj : isBlank jd = false) (hc : isBlank cr = false) (ha : isBlank ar = false) :
    RealistAgent.format_user_message rt jd cr ar = .ok (realistUserMessage rt jd cr ar) := by
  simp [RealistAgent.format_user_message, hr, hj, hc, ha]

/-- On valid inputs and non-blank Critic and Advocate accumulations, the
debate runs to the end: three full phases then the Workflow event, no error. -/
theorem execute_debate_ok (rt jd : String) (mc cf af rf : List String)
    (hr : isBlank rt = false) (hj : isBlank jd = false)
    (hc : isBlank (String.join cf) = false) (ha : isBlank (String.join af) = false) :
    execute_debate rt jd mc cf af rf =
      (phaseActions "Critic" 1 cf ++ phaseActions "Advocate" 2 af ++
        phaseActions "Realist" 3 rf ++
        [Action.yield (workflowEvent (String.join cf) (String.join af) (String.join rf))],
       none) := by
  simp only [execute_debate, critic_format_ok rt jd hr hj, advocate_format_ok rt jd hr hj,
    realist_format_ok rt jd _ _ hr hj hc ha]

theorem yieldedEvents_append (l1 l2 : List Action) :
    yieldedEvents (l1 ++ l2) = yieldedEvents l1 ++ yieldedEvents l2 := by
  simp [yieldedEvents]

theorem filterMap_eventOf_yields (l : List Event) :
    (l.map Action.yield).filterMap eventOfAction = l := by
  induction l with
  | nil => rfl
  | cons e l ih => simp [List.filterMap_cons, eventOfAction, ih]

theorem yieldedEvents_phaseActions (n : String) (o : Nat) (f : List String) :
    yieldedEvents (phaseActions n o f) = agentBlock n o f := by
  unfold yieldedEvents phaseActions agentBlock
  rw [show f.map (fun c => Action.yield (chunkEvent n o c)) =
        (f.map (chunkEvent n o)).map Action.yield from (List.map_map _ _ _).symm]
  simp only [List.filterMap_cons, List.filterMap_append, eventOfAction,
    filterMap_eventOf_yields, List.filterMap_nil]

/-- The event sequence of a successful run: the three agent blocks followed by
the Workflow event. -/
theorem events_ok (rt jd : String) (mc cf af rf : List String)
    (hr : isBlank rt = false) (hj : isBlank jd = false)
    (hc : isBlank (String.join cf) = false) (ha : isBlank (String.join af) = false) :
    yieldedEvents (execute_debate rt jd mc cf af rf).1 =
      agentBlock "Critic" 1 cf ++ agentBlock "Advocate" 2 af ++ agentBlock "Realist" 3 rf ++
        [workflowEvent (String.join cf) (String.join af) (String.join rf)] := by
  rw [execute_debate_ok rt jd mc cf af rf hr hj hc ha]
  simp only [yieldedEvents_append, yieldedEvents_phaseActions]
  simp [yieldedEvents, List.filterMap_cons, eventOfAction]

theorem mem_agentBlock_agent {e : Event} {n : String} {o : Nat} {f : List String}
    (h : e ∈ agentBlock n o f) : e.agent_name = n := by
  simp only [agentBlock, List.mem_cons, List.mem_append, List.mem_map,
    List.mem_singleton] at h
  rcases h with rfl | ⟨c, _, rfl⟩ | rfl | h
  · rfl
  · rfl
  · rfl
  · simp at h

theorem map_order_chunks (n : String) (o : Nat) (f : List String) :
    (f.map (chunkEvent n o)).map Event.order = List.replicate f.length o := by
  induction f with
  | nil => rfl
  | cons c f ih => simp only [List.map_cons, List.length_cons, List.replicate_succ, ih]; rfl

theorem map_order_agentBlock (n : String) (o : Nat) (f : List String) :
    (agentBlock n o f).map Event.order = List.replicate (f.length + 2) o := by
  simp only [agentBlock, List.map_cons, List.map_append, map_order_chunks]
  rw [show f.length + 2 = (f.length + 1) + 1 from rfl, List.replicate_succ,
    List.replicate_succ']
  rfl

theorem map_pair_chunks (n : String) (o : Nat) (f : List String) :
    (f.map (chunkEvent n o)).map (fun e => (e.agent_name, e.order)) =
      List.replicate f.length (n, o) := by
  induction f with
  | nil => rfl
  | cons c f ih => simp only [List.map_cons, List.length_cons, List.replicate_succ, ih]; rfl

theorem map_pair_agentBlock (n : String) (o : Nat) (f : List String) :
    (agentBlock n o f).map (fun e => (e.agent_name, e.order)) =
      List.replicate (f.length + 2) (n, o) := by
  simp only [agentBlock, List.map_cons, List.map_append, map_pair_chunks]
  rw [show f.length + 2 = (f.length + 1) + 1 from rfl, List.replicate_succ,
    List.replicate_succ']
  rfl

theorem sorted_le_replicate (k a : Nat) : List.Sorted (· ≤ ·) (List.replicate k a) := by
  induction k with
  | zero => simp
  | succ k ih =>
    rw [List.replicate_succ, List.sorted_cons]
    exact ⟨fun b hb => (List.eq_of_mem_replicate hb).symm ▸ le_refl a, ih⟩

theorem dedup_replicate {α : Type} [DecidableEq α] (k : Nat) (a : α) :
    (List.replicate (k + 1) a).dedup = [a] := by
  induction k with
  | zero => simp
  | succ k ih =>
    rw [List.replicate_succ, List.dedup_cons_of_mem (by simp [List.mem_replicate])]
    exact ih

theorem replicate_union {α : Type} [DecidableEq α] (k : Nat) (a : α) (l : List α) :
    List.replicate (k + 1) a ∪ l = List.insert a l := by
  induction k with
  | zero => rfl
  | succ k ih =>
    rw [List.replicate_succ]
    show List.insert a (List.replicate (k + 1) a ∪ l) = List.insert a l
    rw [ih]
    by_cases hmem : a ∈ l
    · rw [List.insert_of_mem hmem, List.insert_of_mem hmem]
    · rw [List.insert_of_mem (by rw [List.insert_of_not_mem hmem]; exact List.mem_cons_self a l)]

theorem pairwise_le_replicate (k a : Nat) : List.Pairwise (· ≤ ·) (List.replicate k a) :=
  sorted_le_replicate k a

theorem pairwise_le_phase_orders (k1 k2 k3 : Nat) :
    List.Pairwise (· ≤ ·)
      (List.replicate k1 1 ++ (List.replicate k2 2 ++ (List.replicate k3 3 ++ [4]))) := by
  rw [List.pairwise_append]
  refine ⟨pairwise_le_replicate k1 1, ?_, ?_⟩
  · rw [List.pairwise_append]
    refine ⟨pairwise_le_replicate k2 2, ?_, ?_⟩
    · rw [List.pairwise_append]
      refine ⟨pairwise_le_replicate k3 3, by simp, ?_⟩
      intro a ha b hb
      rw [List.eq_of_mem_replicate ha]
      simp only [List.mem_singleton] at hb
      omega
    · intro a ha b hb
      rw [List.eq_of_mem_replicate ha]
      rcases List.mem_append.mp hb with h | h
      · rw [List.eq_of_mem_replicate h]; omega
      · simp only [List.mem_singleton] at h; omega
  · intro a ha b hb
    rw [List.eq_of_mem_replicate ha]
    rcases List.mem_append.mp hb with h | h
    · rw [List.eq_of_mem_replicate h]; omega
    · rcases List.mem_append.mp h with h' | h'
      · rw [List.eq_of_mem_replicate h']; omega
      · simp only [List.mem_singleton] at h'; omega

theorem filter_agentBlock_ne (n : String) (o : Nat) (f : List String) (m : String)
    (q : Event → Bool) (h : ¬ n = m) :
    (agentBlock n o f).filter (fun e => e.agent_name == m && q e) = [] := by
  apply List.filter_eq_nil_iff.mpr
  intro e he
  have ha := mem_agentBlock_agent he
  simp [ha, beq_iff_eq, h]

theorem filter_workflow_ne (m : String) (q : Event → Bool) (a b c : String)
    (h : ¬ "Workflow" = m) :
    ([workflowEvent a b c].filter (fun e => e.agent_name == m && q e)) = [] := by
  simp [workflowEvent, beq_iff_eq, h]

theorem filter_agentBlock_self_complete (n : String) (o : Nat) (f : List String) :
    (agentBlock n o f).filter (fun e => e.agent_name == n && e.is_complete) =
      [doneEvent n o] := by
  simp [agentBlock, leadEvent, doneEvent, chunkEvent, List.filter_append, List.filter_map,
    Function.comp]

theorem filter_agentBlock_self_incomplete (n : String) (o : Nat) (f : List String) :
    (agentBlock n o f).filter (fun e => e.agent_name == n && !e.is_complete) =
      leadEvent n o :: f.map (chunkEvent n o) := by
  have hcomp : ((fun e => e.agent_name == n && !e.is_complete) ∘ chunkEvent n o) =
      fun _ => true := by
    funext c; simp [chunkEvent]
  simp [agentBlock, leadEvent, doneEvent, chunkEvent, List.filter_append, List.filter_map,
    hcomp]

theorem mem_leadchunks {e : Event} {n : String} {o : Nat} {f : List String}
    (h : e ∈ leadEvent n o :: f.map (chunkEvent n o)) :
    e.is_complete = false ∧ e.agent_name = n := by
  rcases List.mem_cons.mp h with rfl | h
  · exact ⟨rfl, rfl⟩
  · obtain ⟨c, _, rfl⟩ := List.mem_map.mp h
    exact ⟨rfl, rfl⟩

/-! ## Claim theorems: event ordering (C1) -/

/-- C1 fails as stated over all fragment sequences: with non-blank inputs but
a Gateway that yields no fragments for the Critic, the Realist's message
validation raises before the Realist streams, so the Realist gets no
is_complete=true event (the claim demands exactly one) and phase 4 never
happens. -/
theorem C1_counterexample :
    isBlank "John Doe, Software Engineer" = false ∧
    isBlank "Senior Python Developer" = false ∧
    ((yieldedEvents (execute_debate "John Doe, Software Engineer" "Senior Python Developer"
        [] [] [] []).1).filter
      (fun e => e.agent_name == "Realist" && e.is_complete)).length = 0 := by
  exact ⟨rfl, rfl, rfl⟩

/-- C1 amended: once the Critic's and the Advocate's accumulated texts are
non-blank (which the Realist's validation requires for the run to finish),
the event sequence has pairwise non-decreasing order values, its
(agent, order) phases deduplicate to exactly
Critic(1), Advocate(2), Realist(3), Workflow(4) with none skipped or
repeated, and each agent emits exactly one is_complete=true event, after all
of its chunk events and before any event of the next phase. -/
theorem C1_event_ordering (rt jd : String) (mc cf af rf : List String)
    (hr : isBlank rt = false) (hj : isBlank jd = false)
    (hc : isBlank (String.join cf) = false) (ha : isBlank (String.join af) = false)
    (evs : List Event) (hevs : evs = yieldedEvents (execute_debate rt jd mc cf af rf).1) :
    List.Pairwise (· ≤ ·) (evs.map Event.order) ∧
    (evs.map (fun e => (e.agent_name, e.order))).dedup =
      [("Critic", 1), ("Advocate", 2), ("Realist", 3), ("Workflow", 4)] ∧
    (evs.filter (fun e => e.agent_name == "Critic" && e.is_complete)).length = 1 ∧
    (evs.filter (fun e => e.agent_name == "Advocate" && e.is_complete)).length = 1 ∧
    (evs.filter (fun e => e.agent_name == "Realist" && e.is_complete)).length = 1 ∧
    completesOnceInOrder evs "Critic" 1 "Advocate" ∧
    completesOnceInOrder evs "Advocate" 2 "Realist" ∧
    completesOnceInOrder evs "Realist" 3 "Workflow" := by
  subst hevs
  rw [events_ok rt jd mc cf af rf hr hj hc ha]
  rw [List.append_assoc, List.append_assoc]
  refine ⟨?_, ?_, ?_, ?_, ?_, ?_, ?_, ?_⟩
  · rw [show (agentBlock "Critic" 1 cf ++ (agentBlock "Advocate" 2 af ++
        (agentBlock "Realist" 3 rf ++
          [workflowEvent (String.join cf) (String.join af) (String.join rf)]))).map Event.order =
          List.replicate (cf.length + 2) 1 ++ (List.replicate (af.length + 2) 2 ++
            (List.replicate (rf.length + 2) 3 ++ [4])) by
      simp [List.map_append, map_order_agentBlock, workflowEvent]]
    exact pairwise_le_phase_orders _ _ _
  · rw [show (agentBlock "Critic" 1 cf ++ (agentBlock "Advocate" 2 af ++
        (agentBlock "Realist" 3 rf ++
          [workflowEvent (String.join cf) (String.join af) (String.join rf)]))).map
            (fun e => (e.agent_name, e.order)) =
          List.replicate (cf.length + 2) ("Critic", 1) ++
            (List.replicate (af.length + 2) ("Advocate", 2) ++
              (List.replicate (rf.length + 2) ("Realist", 3) ++ [("Workflow", 4)])) by
      simp [List.map_append, map_pair_agentBlock, workflowEvent]]
    rw [List.dedup_append, List.dedup_append, List.dedup_append]
    rw [show cf.length + 2 = (cf.length + 1) + 1 from rfl,
      show af.length + 2 = (af.length + 1) + 1 from rfl,
      show rf.length + 2 = (rf.length + 1) + 1 from rfl,
      replicate_union, replicate_union, replicate_union]
    rw [show ([("Workflow", 4)] : List (String × Nat)).dedup = [("Workflow", 4)] by simp]
    decide
  · simp only [List.filter_append, filter_agentBlock_self_complete,
      filter_agentBlock_ne "Advocate" 2 af "Critic" _ (by decide),
      filter_agentBlock_ne "Realist" 3 rf "Critic" _ (by decide),
      filter_workflow_ne "Critic" _ _ _ _ (by decide)]
    simp
  · simp only [List.filter_append, filter_agentBlock_self_complete,
      filter_agentBlock_ne "Critic" 1 cf "Advocate" _ (by decide),
      filter_agentBlock_ne "Realist" 3 rf "Advocate" _ (by decide),
      filter_workflow_ne "Advocate" _ _ _ _ (by decide)]
    simp
  · simp only [List.filter_append, filter_agentBlock_self_complete,
      filter_agentBlock_ne "Critic" 1 cf "Realist" _ (by decide),
      filter_agentBlock_ne "Advocate" 2 af "Realist" _ (by decide),
      filter_workflow_ne "Realist" _ _ _ _ (by decide)]
    simp
  · refine ⟨leadEvent "Critic" 1 :: cf.map (chunkEvent "Critic" 1),
      agentBlock "Advocate" 2 af ++ (agentBlock "Realist" 3 rf ++
        [workflowEvent (String.join cf) (String.join af) (String.join rf)]), ?_, ?_, ?_, ?_⟩
    · simp [agentBlock]
    · intro e he _
      exact (mem_leadchunks he).1
    · intro e he
      rcases List.mem_append.mp he with h | h
      · rw [mem_agentBlock_agent h]; decide
      · rcases List.mem_append.mp h with h' | h'
        · rw [mem_agentBlock_agent h']; decide
        · simp only [List.mem_singleton] at h'
          subst h'
          exact (by decide : ("Workflow" : String) ≠ "Critic")
    · intro e he
      rw [(mem_leadchunks he).2]; decide
  · refine ⟨agentBlock "Critic" 1 cf ++
      (leadEvent "Advocate" 2 :: af.map (chunkEvent "Advocate" 2)),
      agentBlock "Realist" 3 rf ++
        [workflowEvent (String.join cf) (String.join af) (String.join rf)], ?_, ?_, ?_, ?_⟩
    · simp [agentBlock]
    · intro e he hn
      rcases List.mem_append.mp he with h | h
      · rw [mem_agentBlock_agent h] at hn
        exact absurd hn (by decide)
      · exact (mem_leadchunks h).1
    · intro e he
      rcases List.mem_append.mp he with h | h
      · rw [mem_agentBlock_agent h]; decide
      · simp only [List.mem_singleton] at h
        subst h
        exact (by decide : ("Workflow" : String) ≠ "Advocate")
    · intro e he
      rcases List.mem_append.mp he with h | h
      · rw [mem_agentBlock_agent h]; decide
      · rw [(mem_leadchunks h).2]; decide
  · refine ⟨agentBlock "Critic" 1 cf ++ (agentBlock "Advocate" 2 af ++
      (leadEvent "Realist" 3 :: rf.map (chunkEvent "Realist" 3))),
      [workflowEvent (String.join cf) (String.join af) (String.join rf)], ?_, ?_, ?_, ?_⟩
    · simp [agentBlock]
    · intro e he hn
      rcases List.mem_append.mp he with h | h
      · rw [mem_agentBlock_agent h] at hn
        exact absurd hn (by decide)
      · rcases List.mem_append.mp h with h' | h'
        · rw [mem_agentBlock_agent h'] at hn
          exact absurd hn (by decide)
        · exact (mem_leadchunks h').1
    · intro e he
      simp only [List.mem_singleton] at he
      subst he
      exact (by decide : ("Workflow" : String) ≠ "Realist")
    · intro e he
      rcases List.mem_append.mp he with h | h
      · rw [mem_agentBlock_agent h]; decide
      · rcases List.mem_append.mp h with h' | h'
        · rw [mem_agentBlock_agent h']; decide
        · rw [(mem_leadchunks h').2]; decide

/-- Witness for C1's amended theorem on a concrete full run. -/
theorem C1_event_ordering_witness :
    ((yieldedEvents (execute_debate "John Doe" "Senior Dev" [] ["Weak"] ["Strong"]
        ["Balance"]).1).map (fun e => (e.agent_name, e.order))).dedup =
      [("Critic", 1), ("Advocate", 2), ("Realist", 3), ("Workflow", 4)] ∧
    completesOnceInOrder
      (yieldedEvents (execute_debate "John Doe" "Senior Dev" [] ["Weak"] ["Strong"]
        ["Balance"]).1) "Critic" 1 "Advocate" := by
  have h := C1_event_ordering "John Doe" "Senior Dev" [] ["Weak"] ["Strong"] ["Balance"]
    (by decide) (by decide) (by decide) (by decide) _ rfl
  exact ⟨h.2.1, h.2.2.2.2.2.1⟩

/-! ## String join and consumer lemmas -/

theorem string_foldl_append (l : List String) :
    ∀ a b : String, l.foldl (· ++ ·) (a ++ b) = a ++ l.foldl (· ++ ·) b := by
  induction l with
  | nil => intro a b; rfl
  | cons c l ih =>
    intro a b
    simp only [List.foldl_cons]
    rw [String.append_assoc]
    exact ih a (b ++ c)

theorem join_cons (c : String) (f : List String) :
    String.join (c :: f) = c ++ String.join f := by
  show List.foldl (· ++ ·) "" (c :: f) = c ++ List.foldl (· ++ ·) "" f
  simp only [List.foldl_cons]
  rw [show ("" ++ c : String) = c ++ "" by rw [String.empty_append, String.append_empty]]
  exact string_foldl_append f c ""

theorem find?_key_append_last (dict : List (String × String)) (n v : String)
    (h : dict.find? (fun p => p.1 == n) = none) :
    (dict ++ [(n, v)]).find? (fun p => p.1 == n) = some (n, v) := by
  rw [List.find?_append, h, Option.none_or]
  simp [List.find?]

theorem dictGet_append_last (dict : List (String × String)) (n v : String)
    (h : dict.find? (fun p => p.1 == n) = none) :
    dictGet (dict ++ [(n, v)]) n = some v := by
  simp [dictGet, find?_key_append_last dict n v h]

theorem accumulate_append_last (dict : List (String × String)) (n v c : String)
    (h : dict.find? (fun p => p.1 == n) = none) :
    accumulate (dict ++ [(n, v)]) n c = dict ++ [(n, v ++ c)] := by
  have hmem : ∀ p ∈ dict, (p.1 == n) = false := by
    intro p hp
    have := List.find?_eq_none.mp h p hp
    simpa using this
  unfold accumulate
  rw [find?_key_append_last dict n v h]
  show (dict ++ [(n, v)]).map (fun p => if p.1 == n then (p.1, p.2 ++ c) else p) =
    dict ++ [(n, v ++ c)]
  rw [List.map_append]
  congr 1
  · conv_rhs => rw [← List.map_id dict]
    exact List.map_congr_left (fun p hp => by simp [hmem p hp])
  · simp

theorem consume_chunkEvent (st : StreamState) (n : String) (o : Nat) (c : String) :
    consumeEvent st (chunkEvent n o c) =
      ⟨accumulate st.agent_responses n c, st.persisted⟩ := by
  simp [consumeEvent, chunkEvent]

theorem consume_doneEvent (st : StreamState) (n : String) (o : Nat) (v : String)
    (hw : ¬ n = "Workflow") (hv : dictGet st.agent_responses n = some v) :
    consumeEvent st (doneEvent n o) =
      ⟨st.agent_responses, st.persisted ++ [(n, v, o)]⟩ := by
  simp [consumeEvent, doneEvent, bne_iff_ne, hw, hv]

theorem consume_workflowEvent (st : StreamState) (a b c : String) :
    consumeEvent st (workflowEvent a b c) = st := rfl

theorem consume_chunks (n : String) (o : Nat) (f : List String) :
    ∀ (dict : List (String × String)) (pers : List (String × String × Nat)) (v : String),
      dict.find? (fun p => p.1 == n) = none →
      List.foldl consumeEvent ⟨dict ++ [(n, v)], pers⟩ (f.map (chunkEvent n o)) =
        ⟨dict ++ [(n, v ++ String.join f)], pers⟩ := by
  induction f with
  | nil =>
    intro dict pers v h
    simp [String.join, String.append_empty]
  | cons c f ih =>
    intro dict pers v h
    simp only [List.map_cons, List.foldl_cons]
    rw [consume_chunkEvent]
    simp only
    rw [accumulate_append_last dict n v c h]
    rw [ih dict pers (v ++ c) h]
    rw [join_cons, ← String.append_assoc]

theorem consume_agentBlock (n : String) (o : Nat) (f : List String)
    (dict : List (String × String)) (pers : List (String × String × Nat))
    (hfind : dict.find? (fun p => p.1 == n) = none) (hw : ¬ n = "Workflow") :
    List.foldl consumeEvent ⟨dict, pers⟩ (agentBlock n o f) =
      ⟨dict ++ [(n, String.join f)], pers ++ [(n, String.join f, o)]⟩ := by
  simp only [agentBlock, List.foldl_cons, List.foldl_append]
  have h1 : consumeEvent ⟨dict, pers⟩ (leadEvent n o) = ⟨dict ++ [(n, "")], pers⟩ := by
    rw [show leadEvent n o = chunkEvent n o "" from rfl, consume_chunkEvent]
    simp only
    unfold accumulate
    rw [hfind]
  rw [h1, consume_chunks n o f dict pers "" hfind,
    show ("" ++ String.join f) = String.join f from String.empty_append _]
  simp only [List.foldl_cons, List.foldl_nil]
  rw [consume_doneEvent _ n o (String.join f) hw
    (dictGet_append_last dict n (String.join f) hfind)]

theorem chunk_map_leadchunks (n : String) (o : Nat) (f : List String) :
    (leadEvent n o :: f.map (chunkEvent n o)).map Event.chunk = "" :: f := by
  simp only [List.map_cons, List.map_map]
  rw [show Event.chunk ∘ chunkEvent n o = id from funext fun c => rfl, List.map_id]
  rfl

/-! ## Claim theorems: chunk round-trip (C2) -/

/-- On a completed run, each agent's chunk concatenation equals its joined
Gateway fragments. -/
theorem chunksConcat_run (rt jd : String) (mc cf af rf : List String)
    (hr : isBlank rt = false) (hj : isBlank jd = false)
    (hc : isBlank (String.join cf) = false) (ha : isBlank (String.join af) = false) :
    chunksConcat (yieldedEvents (execute_debate rt jd mc cf af rf).1) "Critic" =
      String.join cf ∧
    chunksConcat (yieldedEvents (execute_debate rt jd mc cf af rf).1) "Advocate" =
      String.join af ∧
    chunksConcat (yieldedEvents (execute_debate rt jd mc cf af rf).1) "Realist" =
      String.join rf := by
  rw [events_ok rt jd mc cf af rf hr hj hc ha]
  rw [List.append_assoc, List.append_assoc]
  refine ⟨?_, ?_, ?_⟩
  · unfold chunksConcat
    simp only [List.filter_append, filter_agentBlock_self_incomplete,
      filter_agentBlock_ne "Advocate" 2 af "Critic" _ (by decide),
      filter_agentBlock_ne "Realist" 3 rf "Critic" _ (by decide),
      filter_workflow_ne "Critic" _ _ _ _ (by decide), List.append_nil]
    rw [chunk_map_leadchunks, join_cons, String.empty_append]
  · unfold chunksConcat
    simp only [List.filter_append, filter_agentBlock_self_incomplete,
      filter_agentBlock_ne "Critic" 1 cf "Advocate" _ (by decide),
      filter_agentBlock_ne "Realist" 3 rf "Advocate" _ (by decide),
      filter_workflow_ne "Advocate" _ _ _ _ (by decide), List.append_nil, List.nil_append]
    rw [chunk_map_leadchunks, join_cons, String.empty_append]
  · unfold chunksConcat
    simp only [List.filter_append, filter_agentBlock_self_incomplete,
      filter_agentBlock_ne "Critic" 1 cf "Realist" _ (by decide),
      filter_agentBlock_ne "Advocate" 2 af "Realist" _ (by decide),
      filter_workflow_ne "Realist" _ _ _ _ (by decide), List.append_nil, List.nil_append]
    rw [chunk_map_leadchunks, join_cons, String.empty_append]

/-- C2: on a completed run, for each agent, concatenating the chunk fields of
its is_complete=false events in emission order yields exactly the joined
Gateway fragments; the terminal Workflow event carries those three texts in
its results; and the stream consumer passes exactly those texts (with the
agent's order) to add_agent_response. -/
theorem C2_round_trip (rt jd : String) (mc cf af rf : List String)
    (hr : isBlank rt = false) (hj : isBlank jd = false)
    (hc : isBlank (String.join cf) = false) (ha : isBlank (String.join af) = false)
    (evs : List Event) (hevs : evs = yieldedEvents (execute_debate rt jd mc cf af rf).1) :
    chunksConcat evs "Critic" = String.join cf ∧
    chunksConcat evs "Advocate" = String.join af ∧
    chunksConcat evs "Realist" = String.join rf ∧
    evs.getLast? = some (workflowEvent (String.join cf) (String.join af) (String.join rf)) ∧
    (consumeStream evs).persisted =
      [("Critic", String.join cf, 1), ("Advocate", String.join af, 2),
       ("Realist", String.join rf, 3)] := by
  subst hevs
  obtain ⟨hcc, hca, hcr⟩ := chunksConcat_run rt jd mc cf af rf hr hj hc ha
  refine ⟨hcc, hca, hcr, ?_, ?_⟩ <;> rw [events_ok rt jd mc cf af rf hr hj hc ha] <;>
    rw [List.append_assoc, List.append_assoc]
  · rw [show agentBlock "Critic" 1 cf ++ (agentBlock "Advocate" 2 af ++
        (agentBlock "Realist" 3 rf ++
          [workflowEvent (String.join cf) (String.join af) (String.join rf)])) =
        (agentBlock "Critic" 1 cf ++ agentBlock "Advocate" 2 af ++ agentBlock "Realist" 3 rf) ++
          [workflowEvent (String.join cf) (String.join af) (String.join rf)] by
      simp [List.append_assoc]]
    exact List.getLast?_concat _
  · unfold consumeStream
    simp only [List.foldl_append]
    rw [consume_agentBlock "Critic" 1 cf [] [] rfl (by decide)]
    simp only [List.nil_append]
    rw [consume_agentBlock "Advocate" 2 af [("Critic", String.join cf)] _ (by simp) (by decide)]
    simp only [List.cons_append, List.nil_append]
    rw [consume_agentBlock "Realist" 3 rf
      [("Critic", String.join cf), ("Advocate", String.join af)] _ (by simp) (by decide)]
    simp only [List.cons_append, List.nil_append]
    simp only [List.foldl_cons, List.foldl_nil, consume_workflowEvent]

/-- Witness for C2 on a concrete run with two Critic fragments. -/
theorem C2_round_trip_witness :
    chunksConcat (yieldedEvents (execute_debate "John Doe" "Senior Dev" [] ["Weak", " verbs"]
        ["Strong"] ["Balance"]).1) "Critic" = String.join ["Weak", " verbs"] ∧
    (consumeStream (yieldedEvents (execute_debate "John Doe" "Senior Dev" []
        ["Weak", " verbs"] ["Strong"] ["Balance"]).1)).persisted =
      [("Critic", String.join ["Weak", " verbs"], 1), ("Advocate", String.join ["Strong"], 2),
       ("Realist", String.join ["Balance"], 3)] := by
  have h := C2_round_trip "John Doe" "Senior Dev" [] ["Weak", " verbs"] ["Strong"] ["Balance"]
    (by decide) (by decide) (by decide) (by decide) _ rfl
  exact ⟨h.1, h.2.2.2.2⟩

/-! ## Claim theorems: validation before the Gateway (C6) -/

theorem gatewayCall_mem_phaseActions {g n : String} {o : Nat} {f : List String}
    (h : Action.gatewayCall g ∈ phaseActions n o f) : g = n := by
  simp only [phaseActions, List.mem_cons, List.mem_append, List.mem_map,
    List.mem_singleton] at h
  rcases h with h | h | ⟨⟨c, _, h⟩ | h⟩ <;> simp_all

/-- C6: blank (empty or whitespace-only) required inputs make the user-message
construction raise the field-specific ValueError; in the orchestrator a blank
resume or job description aborts the run with only the Critic's leading event
emitted and no Gateway call at all, and a blank accumulated Critic or Advocate
text aborts with the corresponding Realist validation message before any
Gateway call is made for the Realist. -/
theorem C6_validation_before_gateway (rt jd cr ar : String) (mc cf af rf : List String) :
    (isBlank rt = true →
      CriticAgent.format_user_message rt jd = .error "Resume text cannot be empty" ∧
      AdvocateAgent.format_user_message rt jd = .error "Resume text cannot be empty" ∧
      RealistAgent.format_user_message rt jd cr ar = .error "Resume text cannot be empty") ∧
    (isBlank rt = false → isBlank jd = true →
      CriticAgent.format_user_message rt jd = .error "Job description cannot be empty" ∧
      AdvocateAgent.format_user_message rt jd = .error "Job description cannot be empty" ∧
      RealistAgent.format_user_message rt jd cr ar = .error "Job description cannot be empty") ∧
    (isBlank rt = false → isBlank jd = false → isBlank cr = true →
      RealistAgent.format_user_message rt jd cr ar = .error "Critic response cannot be empty") ∧
    (isBlank rt = false → isBlank jd = false → isBlank cr = false → isBlank ar = true →
      RealistAgent.format_user_message rt jd cr ar =
        .error "Advocate response cannot be empty") ∧
    (isBlank rt = true →
      execute_debate rt jd mc cf af rf =
        ([Action.yield (leadEvent "Critic" 1)], some "Resume text cannot be empty")) ∧
    (isBlank rt = false → isBlank jd = true →
      execute_debate rt jd mc cf af rf =
        ([Action.yield (leadEvent "Critic" 1)], some "Job description cannot be empty")) ∧
    (isBlank rt = false → isBlank jd = false → isBlank (String.join cf) = true →
      (execute_debate rt jd mc cf af rf).2 = some "Critic response cannot be empty" ∧
      Action.gatewayCall "Realist" ∉ (execute_debate rt jd mc cf af rf).1) ∧
    (isBlank rt = false → isBlank jd = false → isBlank (String.join cf) = false →
      isBlank (String.join af) = true →
      (execute_debate rt jd mc cf af rf).2 = some "Advocate response cannot be empty" ∧
      Action.gatewayCall "Realist" ∉ (execute_debate rt jd mc cf af rf).1) := by
  refine ⟨?_, ?_, ?_, ?_, ?_, ?_, ?_, ?_⟩
  · intro h
    refine ⟨?_, ?_, ?_⟩ <;>
      simp [CriticAgent.format_user_message, AdvocateAgent.format_user_message,
        RealistAgent.format_user_message, h]
  · intro h1 h2
    refine ⟨?_, ?_, ?_⟩ <;>
      simp [CriticAgent.format_user_message, AdvocateAgent.format_user_message,
        RealistAgent.format_user_message, h1, h2]
  · intro h1 h2 h3
    simp [RealistAgent.format_user_message, h1, h2, h3]
  · intro h1 h2 h3 h4
    simp [RealistAgent.format_user_message, h1, h2, h3, h4]
  · intro h
    simp [execute_debate, CriticAgent.format_user_message, h]
  · intro h1 h2
    simp [execute_debate, CriticAgent.format_user_message, h1, h2]
  · intro h1 h2 h3
    have herr : RealistAgent.format_user_message rt jd (String.join cf) (String.join af) =
        .error "Critic response cannot be empty" := by
      simp [RealistAgent.format_user_message, h1, h2, h3]
    have heq : execute_debate rt jd mc cf af rf =
        (phaseActions "Critic" 1 cf ++ phaseActions "Advocate" 2 af ++
          [Action.yield (leadEvent "Realist" 3)], some "Critic response cannot be empty") := by
      simp only [execute_debate, critic_format_ok rt jd h1 h2,
        advocate_format_ok rt jd h1 h2, herr]
    rw [heq]
    refine ⟨rfl, ?_⟩
    intro hmem
    rcases List.mem_append.mp hmem with hm | hm
    · rcases List.mem_append.mp hm with hm' | hm'
      · exact absurd (gatewayCall_mem_phaseActions hm') (by decide)
      · exact absurd (gatewayCall_mem_phaseActions hm') (by decide)
    · simp at hm
  · intro h1 h2 h3 h4
    have herr : RealistAgent.format_user_message rt jd (String.join cf) (String.join af) =
        .error "Advocate response cannot be empty" := by
      simp [RealistAgent.format_user_message, h1, h2, h3, h4]
    have heq : execute_debate rt jd mc cf af rf =
        (phaseActions "Critic" 1 cf ++ phaseActions "Advocate" 2 af ++
          [Action.yield (leadEvent "Realist" 3)],
         some "Advocate response cannot be empty") := by
      simp only [execute_debate, critic_format_ok rt jd h1 h2,
        advocate_format_ok rt jd h1 h2, herr]
    rw [heq]
    refine ⟨rfl, ?_⟩
    intro hmem
    rcases List.mem_append.mp hmem with hm | hm
    · rcases List.mem_append.mp hm with hm' | hm'
      · exact absurd (gatewayCall_mem_phaseActions hm') (by decide)
      · exact absurd (gatewayCall_mem_phaseActions hm') (by decide)
    · simp at hm

/-- Witness for C6: a zero-fragment Critic stream on valid inputs aborts with
the Realist's validation error and no Realist Gateway call. -/
theorem C6_validation_before_gateway_witness :
    (execute_debate "John Doe" "Senior Dev" [] [] ["Strong"] []).2 =
      some "Critic response cannot be empty" ∧
    Action.gatewayCall "Realist" ∉
      (execute_debate "John Doe" "Senior Dev" [] [] ["Strong"] []).1 ∧
    RealistAgent.format_user_message "John Doe" "Senior Dev" " " "Strong" =
      .error "Critic response cannot be empty" := by
  have h := C6_validation_before_gateway "John Doe" "Senior Dev" " " "Strong" [] [] ["Strong"] []
  obtain ⟨h7a, h7b⟩ := h.2.2.2.2.2.2.1 (by decide) (by decide) (by decide)
  exact ⟨h7a, h7b, h.2.2.1 (by decide) (by decide) (by decide)⟩

/-! ## Claim theorems: leading empty chunk (C10) -/

theorem mentionsAgent_of_mem_phaseActions {x : Action} {n : String} {o : Nat}
    {f : List String} (h : x ∈ phaseActions n o f) {m : String}
    (hm : mentionsAgent x m) : m = n := by
  simp only [phaseActions, List.mem_cons, List.mem_append, List.mem_map,
    List.mem_singleton] at h
  rcases h with rfl | rfl | ⟨⟨c, _, rfl⟩ | rfl | h⟩
  · simpa [mentionsAgent, leadEvent, eq_comm] using hm
  · simpa [mentionsAgent, eq_comm] using hm
  · simpa [mentionsAgent, chunkEvent, eq_comm] using hm
  · simpa [mentionsAgent, doneEvent, eq_comm] using hm
  · simp at h

theorem mem_yieldedEvents_of_mem {e : Event} {acts : List Action}
    (h : Action.yield e ∈ acts) : e ∈ yieldedEvents acts := by
  unfold yieldedEvents
  exact List.mem_filterMap.mpr ⟨Action.yield e, h, rfl⟩

/-- With valid inputs, the trace is the two full leading phases followed by
the Realist's leading event and some tail (the tail and the error depend on
whether the Realist's validation passes). -/
theorem execute_debate_shape (rt jd : String) (mc cf af rf : List String)
    (hr : isBlank rt = false) (hj : isBlank jd = false) :
    ∃ tail err,
      execute_debate rt jd mc cf af rf =
        (phaseActions "Critic" 1 cf ++ (phaseActions "Advocate" 2 af ++
          (Action.yield (leadEvent "Realist" 3) :: tail)), err) := by
  cases hREr : RealistAgent.format_user_message rt jd (String.join cf) (String.join af) with
  | error e =>
    refine ⟨[], some e, ?_⟩
    simp only [execute_debate, critic_format_ok rt jd hr hj,
      advocate_format_ok rt jd hr hj, hREr]
    simp [List.append_assoc]
  | ok m =>
    refine ⟨Action.gatewayCall "Realist" ::
      (rf.map (fun c => Action.yield (chunkEvent "Realist" 3 c)) ++
        [Action.yield (doneEvent "Realist" 3)]) ++
      [Action.yield (workflowEvent (String.join cf) (String.join af) (String.join rf))],
      none, ?_⟩
    simp only [execute_debate, critic_format_ok rt jd hr hj,
      advocate_format_ok rt jd hr hj, hREr]
    simp [phaseActions, List.append_assoc]

/-- C10: in every run with valid inputs, each agent's first action concerning
it is the yield of its {chunk: "", is_complete: false} leading event — in
particular it precedes that agent's Gateway call; hence every agent reached
has at least one non-terminal event even on a zero-fragment stream; and on a
completed run the leading empty chunk leaves each agent's concatenated
accumulated text equal to the joined Gateway fragments alone. -/
theorem C10_leading_empty_chunk (rt jd : String) (mc cf af rf : List String)
    (hr : isBlank rt = false) (hj : isBlank jd = false)
    (acts : List Action) (hacts : acts = (execute_debate rt jd mc cf af rf).1) :
    (∀ p ∈ [("Critic", 1), ("Advocate", 2), ("Realist", 3)],
      ∃ l1 l2, acts = l1 ++ Action.yield (leadEvent p.1 p.2) :: l2 ∧
        ∀ x ∈ l1, ¬ mentionsAgent x p.1) ∧
    (∀ p ∈ [("Critic", 1), ("Advocate", 2), ("Realist", 3)],
      1 ≤ ((yieldedEvents acts).filter
        (fun e => e.agent_name == p.1 && !e.is_complete)).length) ∧
    (isBlank (String.join cf) = false → isBlank (String.join af) = false →
      chunksConcat (yieldedEvents acts) "Critic" = String.join cf ∧
      chunksConcat (yieldedEvents acts) "Advocate" = String.join af ∧
      chunksConcat (yieldedEvents acts) "Realist" = String.join rf) := by
  obtain ⟨tail, err, heq⟩ := execute_debate_shape rt jd mc cf af rf hr hj
  have hsplit : ∀ p ∈ [("Critic", 1), ("Advocate", 2), ("Realist", 3)],
      ∃ l1 l2, acts = l1 ++ Action.yield (leadEvent p.1 p.2) :: l2 ∧
        ∀ x ∈ l1, ¬ mentionsAgent x p.1 := by
    intro p hp
    subst hacts
    rw [heq]
    simp only [List.mem_cons, List.mem_singleton] at hp
    rcases hp with rfl | rfl | rfl | hp
    · refine ⟨[], Action.gatewayCall "Critic" ::
        (cf.map (fun c => Action.yield (chunkEvent "Critic" 1 c)) ++
          [Action.yield (doneEvent "Critic" 1)]) ++
        (phaseActions "Advocate" 2 af ++ (Action.yield (leadEvent "Realist" 3) :: tail)),
        ?_, by simp⟩
      simp [phaseActions, List.append_assoc]
    · refine ⟨phaseActions "Critic" 1 cf, Action.gatewayCall "Advocate" ::
        (af.map (fun c => Action.yield (chunkEvent "Advocate" 2 c)) ++
          [Action.yield (doneEvent "Advocate" 2)]) ++
        (Action.yield (leadEvent "Realist" 3) :: tail), ?_, ?_⟩
      · simp [phaseActions, List.append_assoc]
      · intro x hx hm
        exact absurd (mentionsAgent_of_mem_phaseActions hx hm) (by decide)
    · refine ⟨phaseActions "Critic" 1 cf ++ phaseActions "Advocate" 2 af, tail, ?_, ?_⟩
      · simp [List.append_assoc]
      · intro x hx hm
        rcases List.mem_append.mp hx with hx' | hx'
        · exact absurd (mentionsAgent_of_mem_phaseActions hx' hm) (by decide)
        · exact absurd (mentionsAgent_of_mem_phaseActions hx' hm) (by decide)
    · exact absurd hp (List.not_mem_nil p)
  refine ⟨hsplit, ?_, ?_⟩
  · intro p hp
    obtain ⟨l1, l2, hacts', -⟩ := hsplit p hp
    have hlead : leadEvent p.1 p.2 ∈ yieldedEvents acts := by
      apply mem_yieldedEvents_of_mem
      rw [hacts']
      exact List.mem_append.mpr (Or.inr (List.mem_cons_self _ _))
    have hfil : leadEvent p.1 p.2 ∈ (yieldedEvents acts).filter
        (fun e => e.agent_name == p.1 && !e.is_complete) := by
      apply List.mem_filter.mpr
      exact ⟨hlead, by simp [leadEvent]⟩
    exact List.length_pos.mpr (List.ne_nil_of_mem hfil)
  · intro hc ha
    subst hacts
    exact chunksConcat_run rt jd mc cf af rf hr hj hc ha

/-- Witness for C10 on a run whose Realist stream yields zero fragments. -/
theorem C10_leading_empty_chunk_witness :
    1 ≤ ((yieldedEvents (execute_debate "John Doe" "Senior Dev" [] ["Weak"] ["Strong"] []).1).filter
      (fun e => e.agent_name == "Realist" && !e.is_complete)).length ∧
    chunksConcat (yieldedEvents
      (execute_debate "John Doe" "Senior Dev" [] ["Weak"] ["Strong"] []).1) "Realist" =
      String.join [] := by
  have h := C10_leading_empty_chunk "John Doe" "Senior Dev" [] ["Weak"] ["Strong"] []
    (by decide) (by decide) _ rfl
  exact ⟨h.2.1 ("Realist", 3) (by simp), (h.2.2 (by decide) (by decide)).2.2⟩

end ResumeRoast
